import Mathlib

/-
Verification of the StudyBuddy AI content-generation pipeline
(summarization, quiz generation, audio transcription).

The Python sources under src/backEnd are shallowly embedded here:
pure string manipulation becomes functions on lists of characters,
Python exceptions become an explicit `PyError` sum carried in `Except`,
and the single external OpenAI call of each operation is modelled by an
environment `Env` holding the outcome the provider would return.
Wall-clock timing (`processing_time_ms`) and logging are not modelled.
-/

namespace StudyBuddy

/-- Python strings are modelled as lists of characters. -/
abbrev Str := List Char

/-- Literal helper: a Lean string literal viewed as a `Str`. -/
def str (s : String) : Str := s.toList

/-- Single-quote character (used by Python `repr` of strings). -/
def sq : Char := Char.ofNat 39

/-- Characters removed by Python `str.strip()` (ASCII fragment:
space, tab, newline, carriage return, vertical tab, form feed). -/
def pyIsSpace (c : Char) : Bool :=
  c == ' ' || c == '\t' || c == '\n' || c == '\r' ||
    c == Char.ofNat 11 || c == Char.ofNat 12

/-- Python `str.lstrip()`. -/
def pyLStrip (s : Str) : Str := s.dropWhile pyIsSpace

/-- Python `str.rstrip()`. -/
def pyRStrip (s : Str) : Str := (s.reverse.dropWhile pyIsSpace).reverse

/-- Python `str.strip()`. -/
def pyStrip (s : Str) : Str := pyRStrip (pyLStrip s)

/-- Python `str.lower()` on the ASCII fragment. -/
def pyLowerChar (c : Char) : Char :=
  if 65 ≤ c.toNat ∧ c.toNat ≤ 90 then Char.ofNat (c.toNat + 32) else c

/-- Python `str.lower()`. -/
def pyLower (s : Str) : Str := s.map pyLowerChar

/-- Python substring containment `p in s`. -/
def isSub : Str → Str → Bool
  | p, [] => p.isPrefixOf []
  | p, c :: t => p.isPrefixOf (c :: t) || isSub p t

/-! ### JSON values

Model of the values produced by Python `json.loads`.  Numbers are
restricted to integers (no float in any payload the claims touch).
The mutual presentation (instead of nested `List`s) is only so that
decidable equality can be derived; `JArr.toList` recovers ordinary
lists for all further processing. -/

mutual
inductive JVal where
  | jnull
  | jbool (b : Bool)
  | jnum (n : Int)
  | jstr (s : Str)
  | jarr (elems : JArr)
  | jobj (fields : JObj)
deriving DecidableEq
inductive JArr where
  | anil
  | acons (v : JVal) (t : JArr)
deriving DecidableEq
inductive JObj where
  | onil
  | ocons (k : Str) (v : JVal) (t : JObj)
deriving DecidableEq
end

def JArr.toList : JArr → List JVal
  | .anil => []
  | .acons v t => v :: t.toList

def JObj.toList : JObj → List (Str × JVal)
  | .onil => []
  | .ocons k v t => (k, v) :: t.toList

/-- Python `dict` lookup on a parsed JSON object.  `json.loads` keeps the
last value bound to a duplicated key, so the lookup prefers later pairs. -/
def objGet : List (Str × JVal) → Str → Option JVal
  | [], _ => none
  | (k, v) :: t, key =>
    match objGet t key with
    | some w => some w
    | none => if k = key then some v else none

/-- JSON whitespace accepted by the Python `json` parser. -/
def jsonWs (c : Char) : Bool :=
  c == ' ' || c == '\t' || c == '\n' || c == '\r'

/-- Hexadecimal digit value, for `\uXXXX` string escapes. -/
def hexVal (c : Char) : Option Nat :=
  if 48 ≤ c.toNat ∧ c.toNat ≤ 57 then some (c.toNat - 48)
  else if 97 ≤ c.toNat ∧ c.toNat ≤ 102 then some (c.toNat - 87)
  else if 65 ≤ c.toNat ∧ c.toNat ≤ 70 then some (c.toNat - 55)
  else none

/-- Simple JSON string escapes. -/
def unescape (e : Char) : Option Char :=
  if e == '"' then some '"'
  else if e == '\\' then some '\\'
  else if e == '/' then some '/'
  else if e == 'n' then some '\n'
  else if e == 't' then some '\t'
  else if e == 'r' then some '\r'
  else if e == 'b' then some (Char.ofNat 8)
  else if e == 'f' then some (Char.ofNat 12)
  else none

/-- Parse the body of a JSON string literal (the opening quote already
consumed); returns the decoded content and the input after the closing
quote. -/
def parseJStr : Str → Option (Str × Str)
  | [] => none
  | '"' :: t => some ([], t)
  | '\\' :: e :: t =>
    if e == 'u' then
      match t with
      | a :: b :: c :: d :: t3 =>
        match hexVal a, hexVal b, hexVal c, hexVal d with
        | some ha, some hb, some hc, some hd =>
          match parseJStr t3 with
          | some (s, r) => some (Char.ofNat (((ha * 16 + hb) * 16 + hc) * 16 + hd) :: s, r)
          | none => none
        | _, _, _, _ => none
      | _ => none
    else
      match unescape e with
      | some d =>
        match parseJStr t with
        | some (s, r) => some (d :: s, r)
        | none => none
      | none => none
  | c :: t =>
    match parseJStr t with
    | some (s, r) => some (c :: s, r)
    | none => none

/-- Decimal digit run accumulating into a natural number. -/
def digitsLoop : Str → Nat → Nat × Str
  | [], acc => (acc, [])
  | c :: t, acc =>
    if c.isDigit then digitsLoop t (acc * 10 + (c.toNat - 48)) else (acc, c :: t)

/-- Parse a non-empty run of decimal digits. -/
def parseDigits : Str → Option (Nat × Str)
  | [] => none
  | c :: t => if c.isDigit then some (digitsLoop t (c.toNat - 48)) else none

/-- Recursive JSON parser.  `fuel` bounds the recursion depth (any input
of length `n` parses within depth `2 * n + 2`); the mode selects the
nonterminal: `0` = one value, `1` = array items after `[`, `2` = object
members after `\x7b`. -/
def parseJ : Nat → Nat → Str → Option (JVal × Str)
  | 0, _, _ => none
  | fuel + 1, 0, s =>
    let s1 := s.dropWhile jsonWs
    match s1 with
    | [] => none
    | '[' :: t =>
      let t1 := t.dropWhile jsonWs
      (match t1 with
       | ']' :: r => some (.jarr .anil, r)
       | _ => parseJ fuel 1 t1)
    | '{' :: t =>
      let t1 := t.dropWhile jsonWs
      (match t1 with
       | '}' :: r => some (.jobj .onil, r)
       | _ => parseJ fuel 2 t1)
    | '"' :: t =>
      (match parseJStr t with
       | some (cs, r) => some (.jstr cs, r)
       | none => none)
    | '-' :: t =>
      (match parseDigits t with
       | some (n, r) => some (.jnum (-(n : Int)), r)
       | none => none)
    | c :: t =>
      if c.isDigit then
        match parseDigits (c :: t) with
        | some (n, r) => some (.jnum (n : Int), r)
        | none => none
      else if (str "null").isPrefixOf s1 then some (.jnull, s1.drop 4)
      else if (str "true").isPrefixOf s1 then some (.jbool true, s1.drop 4)
      else if (str "false").isPrefixOf s1 then some (.jbool false, s1.drop 5)
      else none
  | fuel + 1, 1, s =>
    (match parseJ fuel 0 s with
     | none => none
     | some (v, r) =>
       let r1 := r.dropWhile jsonWs
       match r1 with
       | ',' :: r2 =>
         (match parseJ fuel 1 r2 with
          | some (.jarr vs, r3) => some (.jarr (.acons v vs), r3)
          | _ => none)
       | ']' :: r2 => some (.jarr (.acons v .anil), r2)
       | _ => none)
  | fuel + 1, _, s =>
    let s1 := s.dropWhile jsonWs
    (match s1 with
     | '"' :: t =>
       (match parseJStr t with
        | none => none
        | some (k, r) =>
          let r1 := r.dropWhile jsonWs
          match r1 with
          | ':' :: r2 =>
            (match parseJ fuel 0 r2 with
             | none => none
             | some (v, r3) =>
               let r4 := r3.dropWhile jsonWs
               match r4 with
               | ',' :: r5 =>
                 (match parseJ fuel 2 r5 with
                  | some (.jobj kvs, r6) => some (.jobj (.ocons k v kvs), r6)
                  | _ => none)
               | '}' :: r5 => some (.jobj (.ocons k v .onil), r5)
               | _ => none)
          | _ => none)
     | _ => none)

/-- Python `json.loads`: parse one value, then accept only trailing
JSON whitespace. -/
def json_loads (s : Str) : Option JVal :=
  match parseJ (2 * s.length + 2) 0 s with
  | some (v, r) => if (r.dropWhile jsonWs).isEmpty then some v else none
  | none => none

/-! ### Python exceptions and the external-call environment -/

/-- The Python exception classes the pipeline raises or catches.
`otherError` stands for any exception outside the named classes
(network failures from the provider, `TypeError`, ...). -/
inductive PyError where
  | valueError (msg : Str)
  | runtimeError (msg : Str)
  | jsonDecodeError (msg : Str)
  | fileNotFoundError (msg : Str)
  | typeError (msg : Str)
  | otherError (msg : Str)
deriving DecidableEq

/-- Python `str(e)` on an exception. -/
def pyErrMsg : PyError → Str
  | .valueError m => m
  | .runtimeError m => m
  | .jsonDecodeError m => m
  | .fileNotFoundError m => m
  | .typeError m => m
  | .otherError m => m

instance {ε α : Type} [DecidableEq ε] [DecidableEq α] : DecidableEq (Except ε α) := fun a b =>
  match a, b with
  | .ok x, .ok y =>
    match decEq x y with
    | isTrue h => isTrue (by rw [h])
    | isFalse h => isFalse (fun hh => h (by cases hh; rfl))
  | .error x, .error y =>
    match decEq x y with
    | isTrue h => isTrue (by rw [h])
    | isFalse h => isFalse (fun hh => h (by cases hh; rfl))
  | .ok _, .error _ => isFalse (fun hh => by cases hh)
  | .error _, .ok _ => isFalse (fun hh => by cases hh)

/-- One external chat-completion request as passed to
`client.chat.completions.create` (temperature is a float constant in the
source and is not modelled). -/
structure ChatCall where
  system : Str
  user : Str
  maxTokens : Int
deriving DecidableEq

/-- The process environment and the outcome the external provider would
return for the single call an operation makes: `apiKeySet` models
`os.getenv("OPENAI_API_KEY")`, `chatResult` the chat-completion content
(`.ok []` models empty/`None` content), `whisperResult` the
speech-to-text output. -/
structure Env where
  apiKeySet : Bool
  chatResult : Except PyError Str
  whisperResult : Except PyError Str

/-! ### Summarizer (`src/ai/summarizer.py`) -/

def visualSummaryPrompt : Str :=
  str "Create a summary with bullet points, clear structure, and suggest visual elements that would help understanding."

def auditorySummaryPrompt : Str :=
  str "Create a summary that flows well when read aloud, using conversational tone and natural speech patterns."

def readingSummaryPrompt : Str :=
  str "Create a well-structured summary with clear sections and logical flow for text-based learning."

def kinestheticSummaryPrompt : Str :=
  str "Create a summary with practical examples, real-world applications, and hands-on learning suggestions."

/-- `style_prompts.get(learning_style, style_prompts['reading'])`. -/
def style_prompts_get (learning_style : Str) : Str :=
  if learning_style = str "visual" then visualSummaryPrompt
  else if learning_style = str "auditory" then auditorySummaryPrompt
  else if learning_style = str "reading" then readingSummaryPrompt
  else if learning_style = str "kinesthetic" then kinestheticSummaryPrompt
  else readingSummaryPrompt

/-- The summarizer's f-string system prompt (note the trailing blank after
"difficulties." and the 4-space indentation of the template lines). -/
def summarizeSystemPrompt (learning_style : Str) : Str :=
  str "You are a helpful study assistant for students with learning difficulties. \n    " ++
    style_prompts_get learning_style ++
    str "\n    Keep summaries concise but comprehensive. Be encouraging and patient."

def summarizeUserPrompt (input_text : Str) : Str :=
  str "Summarize this text for studying:\n\n" ++ input_text

/-- The fixed apologetic fallback returned whenever the call/response part
of `summarize_text` fails. -/
def summarizeFallback : Str :=
  str "I" ++ [sq] ++
    str "m having trouble generating a summary right now. Please try again in a moment, or contact support if the issue persists."

/-- `summarize_text(input_text, learning_style, max_tokens)`.  The second
component records the chat-completion request if one was issued (`none`
means the external service was never reached). -/
def summarize_text (env : Env) (input_text : Str) (learning_style : Str)
    (max_tokens : Int) : Except PyError Str × Option ChatCall :=
  if pyStrip input_text = [] then
    (.error (.valueError (str "Input text cannot be empty")), none)
  else if input_text.length > 10000 then
    (.error (.valueError (str "Input text too long (max 10,000 characters)")), none)
  else if env.apiKeySet = false then
    -- get_openai_client() raises before the try/except block
    (.error (.valueError (str "OPENAI_API_KEY environment variable is not set")), none)
  else
    let call : ChatCall :=
      ⟨summarizeSystemPrompt learning_style, summarizeUserPrompt input_text, max_tokens⟩
    match env.chatResult with
    | .error _ =>
      -- any exception from the API call is caught; the fallback is returned
      (.ok summarizeFallback, some call)
    | .ok summary =>
      if summary = [] then
        -- "OpenAI returned empty response" is raised and caught by the same handler
        (.ok summarizeFallback, some call)
      else (.ok (pyStrip summary), some call)

/-! ### Quiz generator (`src/ai/quiz_generator.py`) -/

def middleSchoolQuizPrompt : Str :=
  str "Create basic comprehension questions that test understanding of main ideas and key facts."

def highSchoolQuizPrompt : Str :=
  str "Create questions that test analysis, inference, and deeper understanding beyond memorization."

def collegeQuizPrompt : Str :=
  str "Create advanced questions requiring critical thinking, synthesis, and evaluation of complex concepts."

/-- `difficulty_prompts.get(difficulty, difficulty_prompts['high_school'])`. -/
def difficulty_prompts_get (difficulty : Str) : Str :=
  if difficulty = str "middle_school" then middleSchoolQuizPrompt
  else if difficulty = str "high_school" then highSchoolQuizPrompt
  else if difficulty = str "college" then collegeQuizPrompt
  else highSchoolQuizPrompt

def visualQuizAdaptation : Str :=
  str "Include references to diagrams, charts, or visual representations when relevant. Use clear, structured question formats."

def auditoryQuizAdaptation : Str :=
  str "Write questions in a conversational style that sound natural when read aloud. Use rhythm and flow."

def readingQuizAdaptation : Str :=
  str "Use traditional academic question formats with precise language and clear structure."

def kinestheticQuizAdaptation : Str :=
  str "Focus on application scenarios, real-world examples, and hands-on problem-solving situations."

/-- `style_adaptations.get(learning_style, style_adaptations['reading'])`. -/
def style_adaptations_get (learning_style : Str) : Str :=
  if learning_style = str "visual" then visualQuizAdaptation
  else if learning_style = str "auditory" then auditoryQuizAdaptation
  else if learning_style = str "reading" then readingQuizAdaptation
  else if learning_style = str "kinesthetic" then kinestheticQuizAdaptation
  else readingQuizAdaptation

/-- The sentence of the quiz system prompt that embeds the requested
question count as a literal decimal number. -/
def quizCountSentence (num_questions : Int) : Str :=
  str "Create " ++ str (toString num_questions) ++
    str " multiple-choice questions from the given text."

/-- The quiz generator's f-string system prompt (4-space indentation of
the template lines; the doubled braces of the f-string render as single
braces). -/
def quizSystemPrompt (num_questions : Int) (difficulty learning_style : Str) : Str :=
  str "You are an expert educational assessment creator for StudyBuddy AI.\n    \n    " ++
    quizCountSentence num_questions ++
    str "\n    \n    Difficulty level: " ++ difficulty ++ str "\n    " ++
    difficulty_prompts_get difficulty ++
    str "\n    \n    Learning style adaptation: " ++ learning_style ++ str "\n    " ++
    style_adaptations_get learning_style ++
    str "\n    \n    Requirements:\n    - Each question must have exactly 4 options (A, B, C, D)\n    - Only one correct answer per question\n    - Include explanation for why the correct answer is right\n    - Questions should test understanding, not just memorization\n    - Use inclusive, encouraging language\n    \n    Return ONLY valid JSON in this exact format:\n    [\n        \x7b\n            \"question\": \"Question text here?\",\n            \"options\": [\"Option A\", \"Option B\", \"Option C\", \"Option D\"],\n            \"correct_answer\": \"A\",\n            \"explanation\": \"Explanation of why A is correct\",\n            \"difficulty\": \"easy|medium|hard\"\n        \x7d\n    ]"

def quizUserPrompt (text : Str) : Str :=
  str "Generate quiz questions from this content:\n\n" ++ pyStrip text

/-- The literal fence markers stripped from the model's reply. -/
def fenceJson : Str := str "```json"

def fenceTicks : Str := str "```"

/-- The response-cleaning steps of `generate_quiz`: strip, remove a
leading "```json", remove a trailing "```", strip again. -/
def quizClean (raw_content : Str) : Str :=
  let c0 := pyStrip raw_content
  let c1 := if fenceJson.isPrefixOf c0 then c0.drop 7 else c0
  let c2 := if fenceTicks.isSuffixOf c1 then c1.take (c1.length - 3) else c1
  pyStrip c2

/-- Python type name of a JSON value, for `TypeError` messages. -/
def pyTypeName : JVal → Str
  | .jnull => str "NoneType"
  | .jbool _ => str "bool"
  | .jnum _ => str "int"
  | .jstr _ => str "str"
  | .jarr _ => str "list"
  | .jobj _ => str "dict"

/-- Python `field in question` on a parsed JSON value: key membership for
dicts, element membership for lists, substring test for strings, and a
`TypeError` otherwise. -/
def pyContains (question : JVal) (field : Str) : Except PyError Bool :=
  match question with
  | .jobj kvs => .ok (objGet kvs.toList field).isSome
  | .jarr xs => .ok (xs.toList.contains (.jstr field))
  | .jstr s => .ok (isSub field s)
  | other =>
    .error (.typeError (str "argument of type " ++ [sq] ++ pyTypeName other ++ [sq] ++
      str " is not iterable"))

/-- Python `len(v)` on a parsed JSON value. -/
def pyLen (v : JVal) : Except PyError Int :=
  match v with
  | .jarr xs => .ok (xs.toList.length : Int)
  | .jstr s => .ok (s.length : Int)
  | .jobj kvs => .ok (((kvs.toList.map Prod.fst).dedup).length : Int)
  | other =>
    .error (.typeError (str "object of type " ++ [sq] ++ pyTypeName other ++ [sq] ++
      str " has no len()"))

/-- Python `question[k]` on a parsed JSON value. -/
def pySubscript (question : JVal) (k : Str) : Except PyError JVal :=
  match question with
  | .jobj kvs =>
    (match objGet kvs.toList k with
     | some v => .ok v
     | none => .error (.otherError (str "KeyError: " ++ [sq] ++ k ++ [sq])))
  | .jstr _ => .error (.typeError (str "string indices must be integers"))
  | .jarr _ => .error (.typeError (str "list indices must be integers or slices, not str"))
  | other =>
    .error (.typeError ([sq] ++ pyTypeName other ++ [sq] ++ str " object is not subscriptable"))

/-- The four required fields of a quiz element, in source order. -/
def requiredFields : List Str :=
  [str "question", str "options", str "correct_answer", str "explanation"]

/-- The list comprehension
`[field for field in required_fields if field not in question]`; a
`TypeError` from the membership test aborts it, as in Python. -/
def filterMissing (question : JVal) : List Str → Except PyError (List Str)
  | [] => .ok []
  | f :: t =>
    match pyContains question f with
    | .error e => .error e
    | .ok b =>
      match filterMissing question t with
      | .error e => .error e
      | .ok rest => .ok (if b then rest else f :: rest)

/-- Python `repr` of a list of strings, as interpolated into the
missing-fields message. -/
def pyListRepr (xs : List Str) : Str :=
  str "[" ++ List.intercalate (str ", ") (xs.map (fun f => [sq] ++ f ++ [sq])) ++ str "]"

/-- The `"Question {i+1} "` prefix common to the three per-element
validation messages. -/
def qMsgHead (i : Nat) : Str := str "Question " ++ str (toString (i + 1)) ++ str " "

/-- One iteration of the per-element validation loop of `generate_quiz`
(`i` is the 0-based enumeration index; the messages use `i + 1`). -/
def checkElem (i : Nat) (question : JVal) : Except PyError Unit :=
  match filterMissing question requiredFields with
  | .error e => .error e
  | .ok missing =>
    if missing ≠ [] then
      .error (.valueError (qMsgHead i ++ str "missing fields: " ++ pyListRepr missing))
    else
      match pySubscript question (str "options") with
      | .error e => .error e
      | .ok opts =>
        match pyLen opts with
        | .error e => .error e
        | .ok n =>
          if n ≠ 4 then
            .error (.valueError (qMsgHead i ++ str "must have exactly 4 options"))
          else
            match pySubscript question (str "correct_answer") with
            | .error e => .error e
            | .ok ca =>
              if ca = .jstr (str "A") ∨ ca = .jstr (str "B") ∨ ca = .jstr (str "C") ∨
                  ca = .jstr (str "D") then
                .ok ()
              else
                .error (.valueError (qMsgHead i ++
                  str "correct_answer must be A, B, C, or D"))

/-- The `for i, question in enumerate(quiz_questions)` validation loop. -/
def checkQuestions : Nat → List JVal → Except PyError Unit
  | _, [] => .ok ()
  | i, q :: t =>
    match checkElem i q with
    | .error e => .error e
    | .ok _ => checkQuestions (i + 1) t

/-- Validation of the parsed list; on success the source returns the list
itself (`return quiz_questions`). -/
def validateQuestions (qs : List JVal) : Except PyError (List JVal) :=
  match checkQuestions 0 qs with
  | .ok _ => .ok qs
  | .error e => .error e

/-- Response normalization of `generate_quiz`: clean fences, parse, check
that the top level is a list, validate each element. -/
def quizNormalize (raw_content : Str) : Except PyError (List JVal) :=
  match json_loads (quizClean raw_content) with
  | none => .error (.jsonDecodeError (str "Expecting value"))
  | some (.jarr qs) => validateQuestions qs.toList
  | some _ => .error (.valueError (str "Quiz response must be a list of questions"))

/-- The `except` clauses of `generate_quiz`: a JSON decoding failure gets
a fixed message, every other exception raised inside the `try` is wrapped
into `RuntimeError("Unable to generate quiz: " + str(e))`. -/
def wrapQuizError (e : PyError) : PyError :=
  match e with
  | .jsonDecodeError _ =>
    .runtimeError (str "Failed to generate properly formatted quiz questions")
  | e => .runtimeError (str "Unable to generate quiz: " ++ pyErrMsg e)

/-- `generate_quiz(text, num_questions, difficulty, learning_style)`.
The second component records the chat-completion request if one was
issued. -/
def generate_quiz (env : Env) (text : Str) (num_questions : Int)
    (difficulty learning_style : Str) : Except PyError (List JVal) × Option ChatCall :=
  if pyStrip text = [] then
    (.error (.valueError (str "Input text cannot be empty")), none)
  else if ¬ (1 ≤ num_questions ∧ num_questions ≤ 10) then
    (.error (.valueError (str "Number of questions must be between 1 and 10")), none)
  else if text.length > 8000 then
    (.error (.valueError (str "Text too long for quiz generation (max 8000 characters)")), none)
  else if env.apiKeySet = false then
    (.error (.valueError (str "OPENAI_API_KEY environment variable is not set")), none)
  else
    let call : ChatCall :=
      ⟨quizSystemPrompt num_questions difficulty learning_style, quizUserPrompt text, 1500⟩
    match env.chatResult with
    | .error e =>
      (.error (.runtimeError (str "Unable to generate quiz: " ++ pyErrMsg e)), some call)
    | .ok raw =>
      if raw = [] then
        (.error (.runtimeError (str "Unable to generate quiz: OpenAI returned empty response")),
          some call)
      else
        match quizNormalize raw with
        | .ok qs => (.ok qs, some call)
        | .error e => (.error (wrapQuizError e), some call)

/-! ### Transcriber (`src/ai/transcriber.py`) -/

def SUPPORTED_FORMATS : List Str :=
  [str ".mp3", str ".mp4", str ".mpeg", str ".mpga", str ".m4a", str ".wav", str ".webm"]

def MAX_FILE_SIZE : Nat := 25 * 1024 * 1024

/-- `', '.join(sorted(SUPPORTED_FORMATS))` (Python sorts the set
lexicographically). -/
def supportedJoined : Str :=
  str ".m4a, .mp3, .mp4, .mpeg, .mpga, .wav, .webm"

def transcribeBusyMsg : Str :=
  str "Transcription service is busy. Please try again in a moment."

def transcribeQuotaMsg : Str :=
  str "Transcription quota exceeded. Please contact support."

def transcribeFormatMsg : Str :=
  str "Audio file format not supported or corrupted."

def noSpeechMsg : Str := str "No speech detected in the audio file."

def defaultContextPrompt : Str :=
  str "This is educational content about academic subjects. Please transcribe with attention to technical and academic vocabulary."

/-- The `except Exception` handler of `transcribe_audio`: substring
classification of the lowercased provider error text, with a generic
message embedding `str(e)` when nothing matches. -/
def classifyTranscriptionError (e : PyError) : PyError :=
  let error_message := pyLower (pyErrMsg e)
  if isSub (str "rate limit") error_message then .runtimeError transcribeBusyMsg
  else if isSub (str "quota") error_message then .runtimeError transcribeQuotaMsg
  else if isSub (str "invalid") error_message then .runtimeError transcribeFormatMsg
  else .runtimeError (str "Transcription failed: " ++ pyErrMsg e)

/-- `transcribe_audio(audio_file_path, language, prompt)`.  File-system
facts (`Path.exists`, `Path.suffix`, `stat().st_size`) are inputs of the
model; the oversize message's float formatting (`:.1f`) is not rendered
exactly, the branch itself is. -/
def transcribe_audio (env : Env) (audio_file_path : Str) (fileExists : Bool)
    (suffix : Str) (file_size : Nat) (language prompt : Option Str) :
    Except PyError Str :=
  if fileExists = false then
    .error (.fileNotFoundError (str "Audio file not found: " ++ audio_file_path))
  else
    let file_extension := pyLower suffix
    if (SUPPORTED_FORMATS.contains file_extension) = false then
      .error (.valueError (str "Unsupported audio format: " ++ file_extension ++
        str ". Supported formats: " ++ supportedJoined))
    else if file_size > MAX_FILE_SIZE then
      .error (.valueError (str "Audio file too large"))
    else if file_size = 0 then
      .error (.valueError (str "Audio file is empty"))
    else if env.apiKeySet = false then
      .error (.valueError (str "OPENAI_API_KEY environment variable is not set"))
    else
      -- prompt selection (passed to the provider; recorded for fidelity)
      let _context : Str := match prompt with
        | some p => p
        | none => defaultContextPrompt
      let _lang := language
      match env.whisperResult with
      | .ok resp =>
        let transcribed_text := pyStrip resp
        if transcribed_text = [] then .ok noSpeechMsg else .ok transcribed_text
      | .error e =>
        match e with
        | .fileNotFoundError m => .error (.fileNotFoundError m)
        | e => .error (classifyTranscriptionError e)

/-- `get_audio_duration`: the source is an unimplemented placeholder that
returns `None` for every path (declared return type `Optional[float]`). -/
def get_audio_duration (_audio_file_path : Str) : Option Int := none

/-! ### API models and routes (`src/api/models.py`, `src/api/routes/`) -/

/-- Outcome of a route handler: a typed success value or an
`HTTPException(status_code, detail)`. -/
inductive RouteResult (α : Type) where
  | success (r : α)
  | httpError (code : Nat) (detail : Str)
deriving DecidableEq

/-- `TranscriptionResponse` as the route fills it (the two `Optional`
float fields are literally `None` in the source; `processing_time_ms`
is wall-clock time and is not modelled). -/
structure TranscriptionResponse where
  transcription : Str
  language_detected : Option Str
  confidence_score : Option Int
  duration_seconds : Option Int
deriving DecidableEq

/-- Python truthiness of `not file.filename` (absent or empty string). -/
def falsyFilename : Option Str → Bool
  | none => true
  | some s => s.isEmpty

/-- The `POST /transcribe` handler `transcribe_audio_file`.  The uploaded
file is given by its (optional) filename, its `Path(filename).suffix`,
and its byte count; the temporary file the route creates always exists
and carries the same suffix and size. -/
def transcribe_audio_file (env : Env) (filename : Option Str) (fileSuffix : Str)
    (file_size : Nat) (language context_prompt : Option Str) :
    RouteResult TranscriptionResponse :=
  if falsyFilename filename then
    .httpError 400 (str "No filename provided in uploaded file")
  else
    let file_extension := pyLower fileSuffix
    if (SUPPORTED_FORMATS.contains file_extension) = false then
      .httpError 400 (str "Unsupported file format: " ++ file_extension ++
        str ". Supported: " ++ supportedJoined)
    else if file_size > MAX_FILE_SIZE then
      .httpError 413 (str "File too large")
    else if file_size = 0 then
      .httpError 400 (str "Empty file uploaded")
    else
      match transcribe_audio env (str "temp") true file_extension file_size
          language context_prompt with
      | .ok transcription =>
        .success ⟨transcription, language, none, none⟩
      | .error (.fileNotFoundError _) => .httpError 500 (str "File processing error")
      | .error (.valueError m) => .httpError 400 m
      | .error (.runtimeError m) => .httpError 500 m
      | .error _ => .httpError 500 (str "Transcription service temporarily unavailable")

def learningStyles : List Str :=
  [str "visual", str "auditory", str "reading", str "kinesthetic"]

def difficultyLevels : List Str :=
  [str "middle_school", str "high_school", str "college"]

/-- Pydantic validation of `SummarizeRequest`: `text` has
`min_length=10`, `max_length=10000` and a validator rejecting
whitespace-only content; `learning_style` must be a `LearningStyle`
member; `max_tokens` has `ge=50`, `le=1000`. -/
def summarizeRequestValid (text : Str) (learning_style : Str) (max_tokens : Int) : Bool :=
  decide (10 ≤ text.length) && decide (text.length ≤ 10000) &&
    decide (pyStrip text ≠ []) && learningStyles.contains learning_style &&
    decide (50 ≤ max_tokens) && decide (max_tokens ≤ 1000)

/-- The `POST /api/summarize` handler `create_summary`, composed with the
pydantic request validation (FastAPI rejects an invalid body with a 422
before the handler runs; the 422 body is not modelled beyond a marker
detail).  The validated `text` is the stripped raw text (the field
validator returns `v.strip()`). -/
def summarizeEndpoint (env : Env) (text learning_style : Str) (max_tokens : Int) :
    RouteResult Str × Option ChatCall :=
  if summarizeRequestValid text learning_style max_tokens = false then
    (.httpError 422 (str "request validation error"), none)
  else
    match summarize_text env (pyStrip text) learning_style max_tokens with
    | (.ok summary, call) => (.success summary, call)
    | (.error (.valueError m), call) => (.httpError 400 m, call)
    | (.error _, call) =>
      (.httpError 500 (str "Unable to generate summary. Please try again."), call)

/-! ### Claim-side characterizations -/

/-- Shape assumption under which the spec's per-element contract is
stated: the element is a JSON object, and when an `options` field is
present it is an array (so Python `len(...)` counts its entries). -/
def elemShaped (q : JVal) : Bool :=
  match q with
  | .jobj kvs =>
    (match objGet kvs.toList (str "options") with
     | some (.jarr _) => true
     | some _ => false
     | none => true)
  | _ => false

/-- The spec's per-element contract: all four required fields present,
`options` an array of exactly 4 entries, `correct_answer` one of
`A`, `B`, `C`, `D`. -/
def elemOkSpec (q : JVal) : Bool :=
  match q with
  | .jobj kvs =>
    requiredFields.all (fun f => (objGet kvs.toList f).isSome) &&
      (match objGet kvs.toList (str "options") with
       | some (.jarr xs) => xs.toList.length == 4
       | _ => false) &&
      (match objGet kvs.toList (str "correct_answer") with
       | some v =>
         v == .jstr (str "A") || v == .jstr (str "B") || v == .jstr (str "C") ||
           v == .jstr (str "D")
       | none => false)
  | _ => false

/-- The message the validation loop produces for a failing element at
0-based index `i`, following the source's check order. -/
def elemMsg (i : Nat) (q : JVal) : Str :=
  match q with
  | .jobj kvs =>
    let missing := requiredFields.filter (fun f => !(objGet kvs.toList f).isSome)
    if missing ≠ [] then qMsgHead i ++ str "missing fields: " ++ pyListRepr missing
    else
      match objGet kvs.toList (str "options") with
      | some (.jarr xs) =>
        if (xs.toList.length : Int) ≠ 4 then qMsgHead i ++ str "must have exactly 4 options"
        else qMsgHead i ++ str "correct_answer must be A, B, C, or D"
      | _ => qMsgHead i ++ str "must have exactly 4 options"
  | _ => qMsgHead i ++ str "correct_answer must be A, B, C, or D"

/-- A quiz payload wrapped in the exact literal fence markers. -/
def wrapFence (payload : Str) : Str := fenceJson ++ payload ++ fenceTicks

/-- A well-formed quiz element (all four fields, 4 options, answer A). -/
def demoGoodQuestion : JVal :=
  .jobj (.ocons (str "question") (.jstr (str "What is H2O?"))
    (.ocons (str "options")
      (.jarr (.acons (.jstr (str "Water")) (.acons (.jstr (str "Air"))
        (.acons (.jstr (str "Fire")) (.acons (.jstr (str "Earth")) .anil)))))
      (.ocons (str "correct_answer") (.jstr (str "A"))
        (.ocons (str "explanation") (.jstr (str "H2O is water.")) .onil))))

/-- A quiz element whose `correct_answer` is not one of A, B, C, D. -/
def demoBadQuestion : JVal :=
  .jobj (.ocons (str "question") (.jstr (str "Pick one"))
    (.ocons (str "options")
      (.jarr (.acons (.jstr (str "x")) (.acons (.jstr (str "y"))
        (.acons (.jstr (str "z")) (.acons (.jstr (str "w")) .anil)))))
      (.ocons (str "correct_answer") (.jstr (str "E"))
        (.ocons (str "explanation") (.jstr (str "none")) .onil))))

def demoQuiz : List JVal := [demoGoodQuestion, demoBadQuestion]

/-! ## Helper lemmas -/

theorem isPrefixOf_append_self (a b : Str) : a.isPrefixOf (a ++ b) = true := by
  induction a with
  | nil => simp [List.isPrefixOf]
  | cons x xs ih => simp [List.isPrefixOf, ih]

theorem isSub_of_isPrefixOf {p s : Str} (h : p.isPrefixOf s = true) : isSub p s = true := by
  cases s with
  | nil => simpa [isSub] using h
  | cons c t => simp [isSub, h]

theorem isSub_append_left {p s : Str} (x : Str) (h : isSub p s = true) :
    isSub p (x ++ s) = true := by
  induction x with
  | nil => simpa using h
  | cons a t ih => simp [isSub, ih]

theorem isSub_nil_left (s : Str) : isSub [] s = true := by
  cases s <;> simp [isSub, List.isPrefixOf]

theorem isPrefixOf_append_ext {p s : Str} (y : Str) (h : p.isPrefixOf s = true) :
    p.isPrefixOf (s ++ y) = true := by
  induction p generalizing s with
  | nil => simp [List.isPrefixOf]
  | cons a as ih =>
    cases s with
    | nil => simp [List.isPrefixOf] at h
    | cons b t =>
      simp only [List.isPrefixOf, List.cons_append, Bool.and_eq_true, beq_iff_eq] at h ⊢
      exact ⟨h.1, ih h.2⟩

theorem isSub_append_right {p s : Str} (y : Str) (h : isSub p s = true) :
    isSub p (s ++ y) = true := by
  induction s with
  | nil =>
    cases p with
    | nil => exact isSub_nil_left _
    | cons a as => simp [isSub, List.isPrefixOf] at h
  | cons c t ih =>
    rw [List.cons_append]
    simp only [isSub, Bool.or_eq_true] at h ⊢
    rcases h with h1 | h2
    · exact Or.inl (by simpa [List.cons_append] using isPrefixOf_append_ext y h1)
    · exact Or.inr (ih h2)

theorem isSub_append_self (x p : Str) : isSub p (x ++ p) = true := by
  have h0 := isPrefixOf_append_self p []
  rw [List.append_nil] at h0
  exact isSub_append_left x (isSub_of_isPrefixOf h0)

theorem pyRStrip_eq_rdropWhile (l : Str) : pyRStrip l = l.rdropWhile pyIsSpace := by
  simp [pyRStrip, List.rdropWhile]

theorem pyStrip_idem (s : Str) : pyStrip (pyStrip s) = pyStrip s := by
  unfold pyStrip
  set A := pyLStrip s with hA
  have hAfix : List.dropWhile pyIsSpace A = A := by
    simp only [hA, pyLStrip, List.dropWhile_idempotent]
  have h1 : pyLStrip (pyRStrip A) = pyRStrip A := by
    rw [pyRStrip_eq_rdropWhile]
    obtain ⟨u, hu⟩ := List.rdropWhile_prefix pyIsSpace A
    cases hr : A.rdropWhile pyIsSpace with
    | nil => simp [pyLStrip]
    | cons c t =>
      have hAc : A = c :: (t ++ u) := by rw [← hu, hr]; simp
      have hc : ¬ (pyIsSpace c = true) := by
        rw [hAc, List.dropWhile_eq_self_iff] at hAfix
        have := hAfix (by simp)
        simpa using this
      simp [pyLStrip, List.dropWhile_cons, hc]
  rw [h1, pyRStrip_eq_rdropWhile, pyRStrip_eq_rdropWhile, List.rdropWhile_idempotent]

theorem pyStrip_wrapFence (p : Str) : pyStrip (wrapFence p) = wrapFence p := by
  have h96 : pyIsSpace (Char.ofNat 96) = false := by decide
  have hfj : fenceJson = Char.ofNat 96 :: str "``json" := by decide
  have htk : fenceTicks = str "``" ++ [Char.ofNat 96] := by decide
  unfold pyStrip wrapFence
  have hl : pyLStrip ((fenceJson ++ p) ++ fenceTicks) = (fenceJson ++ p) ++ fenceTicks := by
    rw [hfj]
    simp [pyLStrip, List.dropWhile_cons, h96]
  rw [hl, pyRStrip_eq_rdropWhile, htk]
  rw [show fenceJson ++ p ++ (str "``" ++ [Char.ofNat 96]) =
      fenceJson ++ p ++ str "``" ++ [Char.ofNat 96] from by simp [List.append_assoc]]
  rw [List.rdropWhile_concat_neg pyIsSpace (fenceJson ++ p ++ str "``") (Char.ofNat 96)
    (by simp [h96])]

theorem quizClean_wrapFence (p : Str) : quizClean (wrapFence p) = pyStrip p := by
  have h1 : fenceJson.isPrefixOf (wrapFence p) = true := by
    unfold wrapFence
    rw [List.append_assoc]
    exact isPrefixOf_append_self fenceJson (p ++ fenceTicks)
  have hdrop : (wrapFence p).drop 7 = p ++ fenceTicks := by
    unfold wrapFence
    rw [List.append_assoc, show (7 : Nat) = fenceJson.length from by decide, List.drop_left]
  have h2 : fenceTicks.isSuffixOf (p ++ fenceTicks) = true := by
    simp only [List.isSuffixOf, List.reverse_append]
    exact isPrefixOf_append_self _ _
  have htake : (p ++ fenceTicks).take ((p ++ fenceTicks).length - 3) = p := by
    have hlen : (p ++ fenceTicks).length = p.length + 3 := by
      simp [fenceTicks, str]
    rw [hlen, Nat.add_sub_cancel]
    exact List.take_left p fenceTicks
  simp only [quizClean]
  rw [pyStrip_wrapFence, if_pos h1, hdrop, if_pos h2, htake]

theorem quizClean_plain (p : Str) (h1 : fenceJson.isPrefixOf (pyStrip p) = false)
    (h2 : fenceTicks.isSuffixOf (pyStrip p) = false) : quizClean p = pyStrip p := by
  have hn1 : ¬ (List.isPrefixOf fenceJson (pyStrip p) = true) := by rw [h1]; simp
  have hn2 : ¬ (List.isSuffixOf fenceTicks (pyStrip p) = true) := by rw [h2]; simp
  simp only [quizClean]
  rw [if_neg hn1, if_neg hn2, pyStrip_idem]

theorem pyLowerChar_idem (c : Char) : pyLowerChar (pyLowerChar c) = pyLowerChar c := by
  unfold pyLowerChar
  by_cases h : 65 ≤ c.toNat ∧ c.toNat ≤ 90
  · rw [if_pos h]
    have hv : (c.toNat + 32).isValidChar := Or.inl (by omega)
    have ht : (Char.ofNat (c.toNat + 32)).toNat = c.toNat + 32 := by
      unfold Char.ofNat
      rw [dif_pos hv]
      rfl
    rw [if_neg (by rw [ht]; omega)]
  · rw [if_neg h, if_neg h]

theorem pyLower_idem (s : Str) : pyLower (pyLower s) = pyLower s := by
  simp only [pyLower, List.map_map]
  apply List.map_congr_left
  intro a _
  exact pyLowerChar_idem a

/-! ## Claims -/

/-- C1: for every input reaching the call/response part of
`summarize_text`, every failure of the external call and the
empty-response failure of response handling are swallowed: the function
returns the one fixed apologetic fallback string (an `.ok` value, so no
exception propagates past the orchestrator boundary). -/
theorem summarize_swallows_failures (env : Env) (input_text learning_style : Str)
    (max_tokens : Int)
    (hne : pyStrip input_text ≠ [])
    (hlen : input_text.length ≤ 10000)
    (hkey : env.apiKeySet = true)
    (hfail : (∃ e, env.chatResult = Except.error e) ∨ env.chatResult = Except.ok []) :
    (summarize_text env input_text learning_style max_tokens).1 = .ok summarizeFallback := by
  simp only [summarize_text]
  rw [if_neg hne, if_neg (by omega), if_neg (by rw [hkey]; simp)]
  rcases hfail with ⟨e, he⟩ | he <;> simp [he]

/-- Witness for C1: a concrete provider failure yields the fallback. -/
theorem summarize_swallows_failures_witness :
    pyStrip (str "The French Revolution began in 1789.") ≠ [] ∧
    (summarize_text ⟨true, .error (.otherError (str "boom")), .ok (str "")⟩
      (str "The French Revolution began in 1789.") (str "reading") 300).1 =
      .ok summarizeFallback :=
  ⟨by decide,
    summarize_swallows_failures ⟨true, .error (.otherError (str "boom")), .ok (str "")⟩
      (str "The French Revolution began in 1789.") (str "reading") 300
      (by decide) (by decide) rfl (Or.inl ⟨.otherError (str "boom"), rfl⟩)⟩

/-- C4 (counterexample): the fence round-trip fails on a payload that
itself ends in a fence marker — the source strips the markers in a
single pass, so the wrapped form retains an inner marker. -/
theorem quiz_fence_roundtrip_counterexample :
    quizNormalize (wrapFence (str "[]```")) ≠ quizNormalize (str "[]```") := by decide

/-- C4 (amended): wrapping a payload in a leading "```json" and a
trailing "```" marker normalizes identically to the bare payload,
provided the stripped payload does not itself start with "```json" or
end with "```". -/
theorem quiz_fence_roundtrip_amended (payload : Str)
    (h1 : fenceJson.isPrefixOf (pyStrip payload) = false)
    (h2 : fenceTicks.isSuffixOf (pyStrip payload) = false) :
    quizNormalize (wrapFence payload) = quizNormalize payload := by
  unfold quizNormalize
  rw [quizClean_wrapFence, quizClean_plain payload h1 h2]

/-- Witness for the amended C4 at the payload "[]". -/
theorem quiz_fence_roundtrip_amended_witness :
    fenceJson.isPrefixOf (pyStrip (str "[]")) = false ∧
    fenceTicks.isSuffixOf (pyStrip (str "[]")) = false ∧
    quizNormalize (wrapFence (str "[]")) = quizNormalize (str "[]") :=
  ⟨by decide, by decide,
    quiz_fence_roundtrip_amended (str "[]") (by decide) (by decide)⟩

/-- C5: on empty or whitespace-only text, both `summarize_text` and
`generate_quiz` reject with the input-validation `ValueError` and the
external invoker is never reached (no call record is produced). -/
theorem empty_input_rejected (env : Env) (text learning_style difficulty : Str)
    (max_tokens num_questions : Int) (h : pyStrip text = []) :
    summarize_text env text learning_style max_tokens =
      (.error (.valueError (str "Input text cannot be empty")), none) ∧
    generate_quiz env text num_questions difficulty learning_style =
      (.error (.valueError (str "Input text cannot be empty")), none) := by
  constructor
  · simp only [summarize_text]
    rw [if_pos h]
  · simp only [generate_quiz]
    rw [if_pos h]

/-- Witness for C5 at a whitespace-only input. -/
theorem empty_input_rejected_witness :
    pyStrip (str "   ") = [] ∧
    summarize_text ⟨true, .ok (str "S"), .ok (str "")⟩ (str "   ") (str "reading") 300 =
      (.error (.valueError (str "Input text cannot be empty")), none) ∧
    generate_quiz ⟨true, .ok (str "S"), .ok (str "")⟩ (str "   ") 3 (str "high_school")
      (str "reading") =
      (.error (.valueError (str "Input text cannot be empty")), none) :=
  ⟨by decide,
    (empty_input_rejected ⟨true, .ok (str "S"), .ok (str "")⟩ (str "   ") (str "reading")
      (str "high_school") 300 3 (by decide)).1,
    (empty_input_rejected ⟨true, .ok (str "S"), .ok (str "")⟩ (str "   ") (str "reading")
      (str "high_school") 300 3 (by decide)).2⟩

/-- C6: a summarize request whose `max_tokens` lies outside `[50, 1000]`
is rejected by the pydantic request validation with a 422 before the
handler runs, so no external call is made. -/
theorem summarize_token_limit_rejected (env : Env) (text learning_style : Str)
    (max_tokens : Int) (h : max_tokens < 50 ∨ 1000 < max_tokens) :
    summarizeEndpoint env text learning_style max_tokens =
      (.httpError 422 (str "request validation error"), none) := by
  have hv : summarizeRequestValid text learning_style max_tokens = false := by
    simp only [summarizeRequestValid]
    rcases h with h | h
    · have h5 : decide (50 ≤ max_tokens) = false := by simp; omega
      simp [h5]
    · have h5 : decide (max_tokens ≤ 1000) = false := by simp; omega
      simp [h5]
  simp only [summarizeEndpoint]
  rw [if_pos hv]

/-- Witness for C6 at `max_tokens = 10`. -/
theorem summarize_token_limit_rejected_witness :
    ((10 : Int) < 50 ∨ (1000 : Int) < 10) ∧
    summarizeEndpoint ⟨true, .ok (str "S"), .ok (str "")⟩
      (str "a perfectly valid request text") (str "reading") 10 =
      (.httpError 422 (str "request validation error"), none) :=
  ⟨Or.inl (by decide),
    summarize_token_limit_rejected ⟨true, .ok (str "S"), .ok (str "")⟩
      (str "a perfectly valid request text") (str "reading") 10 (Or.inl (by decide))⟩

/-- C7: a quiz request with `num_questions` outside `[1, 10]` is rejected
with a `ValueError` and no external call is made; with the count in range
(and the other inputs valid) the external call is issued and the count
appears as a literal decimal number in the assembled instruction text. -/
theorem quiz_count_validation (env : Env) (text difficulty learning_style : Str)
    (num_questions : Int) :
    ((num_questions < 1 ∨ 10 < num_questions) →
      (∃ m, (generate_quiz env text num_questions difficulty learning_style).1 =
        .error (.valueError m)) ∧
      (generate_quiz env text num_questions difficulty learning_style).2 = none) ∧
    ((1 ≤ num_questions ∧ num_questions ≤ 10) → pyStrip text ≠ [] →
      text.length ≤ 8000 → env.apiKeySet = true →
      ∃ call, (generate_quiz env text num_questions difficulty learning_style).2 = some call ∧
        isSub (quizCountSentence num_questions) call.system = true) := by
  constructor
  · intro h
    by_cases he : pyStrip text = []
    · constructor
      · refine ⟨str "Input text cannot be empty", ?_⟩
        simp only [generate_quiz]
        rw [if_pos he]
      · simp only [generate_quiz]
        rw [if_pos he]
    · have hcnt : ¬ (1 ≤ num_questions ∧ num_questions ≤ 10) := by omega
      constructor
      · refine ⟨str "Number of questions must be between 1 and 10", ?_⟩
        simp only [generate_quiz]
        rw [if_neg he, if_pos hcnt]
      · simp only [generate_quiz]
        rw [if_neg he, if_pos hcnt]
  · intro hin hne hlen hkey
    have hsub : isSub (quizCountSentence num_questions)
        (quizSystemPrompt num_questions difficulty learning_style) = true := by
      unfold quizSystemPrompt
      iterate 9 apply isSub_append_right
      exact isSub_append_self _ _
    simp only [generate_quiz]
    rw [if_neg hne, if_neg (not_not_intro hin), if_neg (by omega),
      if_neg (by rw [hkey]; simp)]
    refine ⟨⟨quizSystemPrompt num_questions difficulty learning_style,
      quizUserPrompt text, 1500⟩, ?_, hsub⟩
    cases env.chatResult with
    | error e => rfl
    | ok raw =>
      by_cases hr : raw = []
      · simp [hr]
      · cases hq : quizNormalize raw with
        | ok qs => simp [hr, hq]
        | error e => simp [hr, hq]

/-- Witness for C7: both branches at concrete requests (count 0 rejected,
count 2 issued with "Create 2 ..." in the instruction). -/
theorem quiz_count_validation_witness :
    ((0 : Int) < 1 ∨ (10 : Int) < 0) ∧
    ((∃ m, (generate_quiz ⟨true, .ok (str "[]"), .ok (str "")⟩ (str "water cycle notes") 0
        (str "college") (str "reading")).1 = .error (.valueError m)) ∧
      (generate_quiz ⟨true, .ok (str "[]"), .ok (str "")⟩ (str "water cycle notes") 0
        (str "college") (str "reading")).2 = none) ∧
    (∃ call, (generate_quiz ⟨true, .ok (str "[]"), .ok (str "")⟩ (str "water cycle notes") 2
        (str "college") (str "reading")).2 = some call ∧
      isSub (quizCountSentence 2) call.system = true) :=
  ⟨Or.inl (by decide),
    (quiz_count_validation ⟨true, .ok (str "[]"), .ok (str "")⟩ (str "water cycle notes")
      (str "college") (str "reading") 0).1 (Or.inl (by decide)),
    (quiz_count_validation ⟨true, .ok (str "[]"), .ok (str "")⟩ (str "water cycle notes")
      (str "college") (str "reading") 2).2 (by constructor <;> decide) (by decide)
      (by decide) rfl⟩

/-- C8: an unknown learning style resolves to the reading-style phrase and
an unknown difficulty to the high-school phrase, in both the quiz and the
summarize prompt composition, which never fails on such values: the
fallback phrases appear in the assembled instruction strings. -/
theorem unknown_style_difficulty_defaults (num_questions : Int)
    (difficulty learning_style : Str)
    (hs : learningStyles.contains learning_style = false)
    (hd : difficultyLevels.contains difficulty = false) :
    style_adaptations_get learning_style = readingQuizAdaptation ∧
    difficulty_prompts_get difficulty = highSchoolQuizPrompt ∧
    style_prompts_get learning_style = readingSummaryPrompt ∧
    isSub readingQuizAdaptation
      (quizSystemPrompt num_questions difficulty learning_style) = true ∧
    isSub highSchoolQuizPrompt
      (quizSystemPrompt num_questions difficulty learning_style) = true ∧
    isSub readingSummaryPrompt (summarizeSystemPrompt learning_style) = true := by
  have hs1 : learning_style ≠ str "visual" := by
    rintro rfl; exact absurd hs (by decide)
  have hs2 : learning_style ≠ str "auditory" := by
    rintro rfl; exact absurd hs (by decide)
  have hs3 : learning_style ≠ str "reading" := by
    rintro rfl; exact absurd hs (by decide)
  have hs4 : learning_style ≠ str "kinesthetic" := by
    rintro rfl; exact absurd hs (by decide)
  have hd1 : difficulty ≠ str "middle_school" := by
    rintro rfl; exact absurd hd (by decide)
  have hd2 : difficulty ≠ str "high_school" := by
    rintro rfl; exact absurd hd (by decide)
  have hd3 : difficulty ≠ str "college" := by
    rintro rfl; exact absurd hd (by decide)
  have hsa : style_adaptations_get learning_style = readingQuizAdaptation := by
    simp only [style_adaptations_get]
    rw [if_neg hs1, if_neg hs2, if_neg hs3, if_neg hs4]
  have hdp : difficulty_prompts_get difficulty = highSchoolQuizPrompt := by
    simp only [difficulty_prompts_get]
    rw [if_neg hd1, if_neg hd2, if_neg hd3]
  have hsp : style_prompts_get learning_style = readingSummaryPrompt := by
    simp only [style_prompts_get]
    rw [if_neg hs1, if_neg hs2, if_neg hs3, if_neg hs4]
  refine ⟨hsa, hdp, hsp, ?_, ?_, ?_⟩
  · unfold quizSystemPrompt
    rw [hsa]
    apply isSub_append_right
    exact isSub_append_self _ _
  · unfold quizSystemPrompt
    rw [hdp]
    iterate 5 apply isSub_append_right
    exact isSub_append_self _ _
  · unfold summarizeSystemPrompt
    rw [hsp]
    apply isSub_append_right
    exact isSub_append_self _ _

/-- Witness for C8 at the unknown values "braille" and "kindergarten". -/
theorem unknown_style_difficulty_defaults_witness :
    learningStyles.contains (str "braille") = false ∧
    difficultyLevels.contains (str "kindergarten") = false ∧
    style_adaptations_get (str "braille") = readingQuizAdaptation ∧
    difficulty_prompts_get (str "kindergarten") = highSchoolQuizPrompt ∧
    style_prompts_get (str "braille") = readingSummaryPrompt :=
  ⟨by decide, by decide,
    (unknown_style_difficulty_defaults 3 (str "kindergarten") (str "braille")
      (by decide) (by decide)).1,
    (unknown_style_difficulty_defaults 3 (str "kindergarten") (str "braille")
      (by decide) (by decide)).2.1,
    (unknown_style_difficulty_defaults 3 (str "kindergarten") (str "braille")
      (by decide) (by decide)).2.2.1⟩

/-- C2 (counterexample): a provider error whose text contains none of
"rate limit", "quota", "invalid" is shown to the caller with its raw text
embedded verbatim in the 500 detail, contradicting the claim that raw
provider error text never reaches the caller. -/
theorem transcription_raw_error_reaches_caller :
    transcribe_audio_file ⟨true, .ok (str ""), .error (.otherError
        (str "connection reset by peer"))⟩
      (some (str "a.mp3")) (str ".mp3") 5 none none =
      .httpError 500 (str "Transcription failed: connection reset by peer") ∧
    isSub (str "connection reset by peer")
      (str "Transcription failed: connection reset by peer") = true ∧
    str "Transcription failed: connection reset by peer" ≠ transcribeBusyMsg ∧
    str "Transcription failed: connection reset by peer" ≠ transcribeQuotaMsg ∧
    str "Transcription failed: connection reset by peer" ≠ transcribeFormatMsg := by
  refine ⟨by decide, by decide, by decide, by decide, by decide⟩

/-- C2 (amended): provider errors whose lowercased text contains
"rate limit", "quota" or "invalid" (tested in that order) are replaced by
the corresponding fixed classified message before reaching the caller;
any other provider error surfaces with its raw text embedded verbatim in
the generic "Transcription failed: ..." detail. -/
theorem transcription_error_classification (env : Env) (filename fileSuffix : Str)
    (file_size : Nat) (language context_prompt : Option Str) (m : Str)
    (hname : filename ≠ [])
    (hfmt : SUPPORTED_FORMATS.contains (pyLower fileSuffix) = true)
    (hsize : file_size ≤ MAX_FILE_SIZE) (hnz : file_size ≠ 0)
    (hkey : env.apiKeySet = true)
    (he : env.whisperResult = .error (.otherError m)) :
    (isSub (str "rate limit") (pyLower m) = true →
      transcribe_audio_file env (some filename) fileSuffix file_size language context_prompt =
        .httpError 500 transcribeBusyMsg) ∧
    (isSub (str "rate limit") (pyLower m) = false →
      isSub (str "quota") (pyLower m) = true →
      transcribe_audio_file env (some filename) fileSuffix file_size language context_prompt =
        .httpError 500 transcribeQuotaMsg) ∧
    (isSub (str "rate limit") (pyLower m) = false →
      isSub (str "quota") (pyLower m) = false →
      isSub (str "invalid") (pyLower m) = true →
      transcribe_audio_file env (some filename) fileSuffix file_size language context_prompt =
        .httpError 500 transcribeFormatMsg) ∧
    (isSub (str "rate limit") (pyLower m) = false →
      isSub (str "quota") (pyLower m) = false →
      isSub (str "invalid") (pyLower m) = false →
      transcribe_audio_file env (some filename) fileSuffix file_size language context_prompt =
        .httpError 500 (str "Transcription failed: " ++ m)) := by
  have hta : transcribe_audio env (str "temp") true (pyLower fileSuffix) file_size
      language context_prompt = .error (classifyTranscriptionError (.otherError m)) := by
    simp only [transcribe_audio, pyLower_idem]
    rw [if_neg (by simp), if_neg (by rw [hfmt]; simp), if_neg (by omega), if_neg hnz,
      if_neg (by rw [hkey]; simp), he]
  have hroute : ∀ msg, classifyTranscriptionError (.otherError m) = .runtimeError msg →
      transcribe_audio_file env (some filename) fileSuffix file_size language
        context_prompt = .httpError 500 msg := by
    intro msg hcl
    simp only [transcribe_audio_file]
    rw [if_neg (by simp [falsyFilename, List.isEmpty_iff, hname]), if_neg (by rw [hfmt]; simp),
      if_neg (by omega), if_neg hnz, hta, hcl]
  refine ⟨?_, ?_, ?_, ?_⟩
  · intro h1
    exact hroute _ (by simp only [classifyTranscriptionError, pyErrMsg]; rw [if_pos h1])
  · intro h1 h2
    exact hroute _ (by
      simp only [classifyTranscriptionError, pyErrMsg]
      rw [if_neg (by rw [h1]; simp), if_pos h2])
  · intro h1 h2 h3
    exact hroute _ (by
      simp only [classifyTranscriptionError, pyErrMsg]
      rw [if_neg (by rw [h1]; simp), if_neg (by rw [h2]; simp), if_pos h3])
  · intro h1 h2 h3
    exact hroute _ (by
      simp only [classifyTranscriptionError, pyErrMsg]
      rw [if_neg (by rw [h1]; simp), if_neg (by rw [h2]; simp), if_neg (by rw [h3]; simp)])

/-- Witness for the amended C2: a "Rate Limit" provider error is replaced
by the fixed busy message. -/
theorem transcription_error_classification_witness :
    isSub (str "rate limit") (pyLower (str "Rate Limit hit")) = true ∧
    transcribe_audio_file ⟨true, .ok (str ""), .error (.otherError (str "Rate Limit hit"))⟩
      (some (str "a.mp3")) (str ".mp3") 5 none none = .httpError 500 transcribeBusyMsg :=
  ⟨by decide,
    (transcription_error_classification
      ⟨true, .ok (str ""), .error (.otherError (str "Rate Limit hit"))⟩
      (str "a.mp3") (str ".mp3") 5 none none (str "Rate Limit hit")
      (by decide) (by decide) (by decide) (by decide) rfl rfl).1 (by decide)⟩

/-- C10: every successful transcription response carries
`confidence_score = None`, `duration_seconds = None` and
`language_detected` equal to the caller-supplied language parameter, and
`get_audio_duration` returns `None` for every input. -/
theorem transcription_static_fields :
    (∀ (env : Env) (filename : Option Str) (fileSuffix : Str) (file_size : Nat)
      (language context_prompt : Option Str) (r : TranscriptionResponse),
      transcribe_audio_file env filename fileSuffix file_size language context_prompt =
        .success r →
      r.language_detected = language ∧ r.confidence_score = none ∧
        r.duration_seconds = none) ∧
    ∀ p, get_audio_duration p = none := by
  constructor
  · intro env filename fileSuffix file_size language context_prompt r h
    simp only [transcribe_audio_file] at h
    by_cases hfn : falsyFilename filename = true
    · rw [if_pos hfn] at h
      cases h
    · rw [if_neg hfn] at h
      by_cases hct : (SUPPORTED_FORMATS.contains (pyLower fileSuffix)) = false
      · rw [if_pos hct] at h
        cases h
      · rw [if_neg hct] at h
        by_cases hsz : file_size > MAX_FILE_SIZE
        · rw [if_pos hsz] at h
          cases h
        · rw [if_neg hsz] at h
          by_cases hz : file_size = 0
          · rw [if_pos hz] at h
            cases h
          · rw [if_neg hz] at h
            cases hT : transcribe_audio env (str "temp") true (pyLower fileSuffix)
                file_size language context_prompt with
            | ok t =>
              rw [hT] at h
              cases h
              exact ⟨rfl, rfl, rfl⟩
            | error e =>
              rw [hT] at h
              cases e <;> cases h
  · intro p
    rfl

/-- Witness for C10 at a concrete successful transcription. -/
theorem transcription_static_fields_witness :
    transcribe_audio_file ⟨true, .ok (str ""), .ok (str " hello ")⟩ (some (str "a.MP3"))
      (str ".MP3") 5 (some (str "en")) none =
      .success ⟨str "hello", some (str "en"), none, none⟩ ∧
    (some (str "en") = some (str "en") ∧
      (none : Option Int) = none ∧ (none : Option Int) = none) :=
  ⟨by decide,
    transcription_static_fields.1 ⟨true, .ok (str ""), .ok (str " hello ")⟩
      (some (str "a.MP3")) (str ".MP3") 5 (some (str "en")) none
      ⟨str "hello", some (str "en"), none, none⟩ (by decide)⟩

theorem filterMissing_obj (kvs : JObj) (l : List Str) :
    filterMissing (.jobj kvs) l =
      .ok (l.filter (fun f => !(objGet kvs.toList f).isSome)) := by
  induction l with
  | nil => rfl
  | cons f t ih =>
    simp only [filterMissing, pyContains, ih, List.filter_cons]
    cases hb : (objGet kvs.toList f).isSome <;> simp [hb]

/-- `checkElem` agrees with the spec's per-element contract on shaped
elements: success exactly when the element is well-formed, and otherwise
the source's message for the first failing check, carrying the 1-based
index. -/
theorem checkElem_eq (i : Nat) (q : JVal) (hq : elemShaped q = true) :
    checkElem i q =
      (if elemOkSpec q = true then .ok ()
       else .error (.valueError (elemMsg i q))) := by
  cases q with
  | jnull => simp [elemShaped] at hq
  | jbool b => simp [elemShaped] at hq
  | jnum n => simp [elemShaped] at hq
  | jstr s => simp [elemShaped] at hq
  | jarr a => simp [elemShaped] at hq
  | jobj kvs =>
    have hfm := filterMissing_obj kvs requiredFields
    by_cases hm : requiredFields.filter (fun f => !(objGet kvs.toList f).isSome) = []
    · -- no missing field: all four lookups succeed
      have hall : ∀ f ∈ requiredFields, (objGet kvs.toList f).isSome = true := by
        intro f hf
        have h1 := List.filter_eq_nil_iff.mp hm f hf
        cases hg : objGet kvs.toList f with
        | none => exfalso; rw [hg] at h1; simp at h1
        | some v => rfl
      have hallb : requiredFields.all (fun f => (objGet kvs.toList f).isSome) = true := by
        rw [List.all_eq_true]
        intro f hf
        simp [hall f hf]
      have hopt : (objGet kvs.toList (str "options")).isSome = true :=
        hall _ (show (str "options") ∈ requiredFields by decide)
      have hca : (objGet kvs.toList (str "correct_answer")).isSome = true :=
        hall _ (show (str "correct_answer") ∈ requiredFields by decide)
      cases ho : objGet kvs.toList (str "options") with
      | none => rw [ho] at hopt; simp at hopt
      | some v =>
        cases v with
        | jnull => simp [elemShaped, ho] at hq
        | jbool b => simp [elemShaped, ho] at hq
        | jnum n => simp [elemShaped, ho] at hq
        | jstr s => simp [elemShaped, ho] at hq
        | jobj o => simp [elemShaped, ho] at hq
        | jarr xs =>
          cases hc : objGet kvs.toList (str "correct_answer") with
          | none => rw [hc] at hca; simp at hca
          | some cv =>
            simp only [checkElem, hfm, hm, elemOkSpec, elemMsg, hallb, ho, hc,
              pySubscript, pyLen, Bool.true_and]
            rw [if_neg (by simp : ¬ (([] : List Str) ≠ []))]
            by_cases hlen : (xs.toList.length : Int) = 4
            · have hlenb : (xs.toList.length == 4) = true := by
                simp only [beq_iff_eq]
                omega
              rw [if_neg (by omega : ¬ ((xs.toList.length : Int) ≠ 4)), hlenb,
                Bool.true_and]
              by_cases hcv : cv = .jstr (str "A") ∨ cv = .jstr (str "B") ∨
                  cv = .jstr (str "C") ∨ cv = .jstr (str "D")
              · have hcvb : (cv == .jstr (str "A") || cv == .jstr (str "B") ||
                    cv == .jstr (str "C") || cv == .jstr (str "D")) = true := by
                  rcases hcv with h | h | h | h <;> simp [h]
                rw [if_pos hcv, hcvb, if_pos rfl]
              · have hcvb : (cv == .jstr (str "A") || cv == .jstr (str "B") ||
                    cv == .jstr (str "C") || cv == .jstr (str "D")) = false := by
                  push_neg at hcv
                  simp only [Bool.or_eq_false_iff, beq_eq_false_iff_ne, ne_eq]
                  exact ⟨⟨⟨hcv.1, hcv.2.1⟩, hcv.2.2.1⟩, hcv.2.2.2⟩
                rw [if_neg hcv, hcvb]
                simp [hlen]
            · have hlenb : (xs.toList.length == 4) = false := by
                simp only [beq_eq_false_iff_ne, ne_eq]
                omega
              rw [if_pos hlen, hlenb]
              simp [hlen]
    · -- at least one missing field
      have hallb : requiredFields.all (fun f => (objGet kvs.toList f).isSome) = false := by
        by_contra hb
        rw [Bool.not_eq_false, List.all_eq_true] at hb
        apply hm
        rw [List.filter_eq_nil_iff]
        intro f hf
        simp [hb f hf]
      simp only [checkElem, hfm, elemOkSpec, elemMsg, hallb, Bool.false_and]
      rw [if_neg (by simp : ¬ ((false : Bool) = true))]
      rw [if_pos hm, if_pos hm]

theorem checkQuestions_eq_ok (qs : List JVal) :
    ∀ i, (∀ q ∈ qs, elemShaped q = true) → (∀ q ∈ qs, elemOkSpec q = true) →
    checkQuestions i qs = .ok () := by
  induction qs with
  | nil => intro i _ _; rfl
  | cons q t ih =>
    intro i hsh hok
    have h1 := checkElem_eq i q (hsh q (by simp))
    rw [if_pos (hok q (by simp))] at h1
    simp only [checkQuestions, h1]
    exact ih (i + 1) (fun r hr => hsh r (by simp [hr])) (fun r hr => hok r (by simp [hr]))

theorem checkQuestions_ok_imp (qs : List JVal) :
    ∀ i, (∀ q ∈ qs, elemShaped q = true) → checkQuestions i qs = .ok () →
    ∀ q ∈ qs, elemOkSpec q = true := by
  induction qs with
  | nil => intro i _ _ q hq; simp at hq
  | cons q t ih =>
    intro i hsh hok r hr
    have h1 := checkElem_eq i q (hsh q (by simp))
    by_cases hq0 : elemOkSpec q = true
    · rw [if_pos hq0] at h1
      have ht : checkQuestions (i + 1) t = .ok () := by
        simp only [checkQuestions, h1] at hok
        exact hok
      rcases List.mem_cons.mp hr with rfl | hrt
      · exact hq0
      · exact ih (i + 1) (fun s hs => hsh s (by simp [hs])) ht r hrt
    · exfalso
      rw [if_neg hq0] at h1
      simp only [checkQuestions, h1] at hok
      exact Except.noConfusion hok

theorem checkQuestions_eq_err (qs : List JVal) :
    ∀ i k, (hk : k < qs.length) →
    (∀ q ∈ qs, elemShaped q = true) →
    (∀ j, (hj : j < k) → elemOkSpec (qs.get ⟨j, Nat.lt_trans hj hk⟩) = true) →
    elemOkSpec (qs.get ⟨k, hk⟩) = false →
    checkQuestions i qs = .error (.valueError (elemMsg (i + k) (qs.get ⟨k, hk⟩))) := by
  induction qs with
  | nil => intro i k hk; exact absurd hk (by simp)
  | cons q t ih =>
    intro i k hk hsh hpre hbad
    cases k with
    | zero =>
      have h1 := checkElem_eq i q (hsh q (by simp))
      rw [if_neg (by simp [show elemOkSpec q = false from hbad])] at h1
      simp only [checkQuestions, h1, Nat.add_zero]
      rfl
    | succ k' =>
      have hq0 : elemOkSpec q = true := hpre 0 (Nat.succ_pos k')
      have h1 := checkElem_eq i q (hsh q (by simp))
      rw [if_pos hq0] at h1
      simp only [checkQuestions, h1]
      have hk' : k' < t.length := by simpa using hk
      have hres := ih (i + 1) k' hk' (fun s hs => hsh s (by simp [hs]))
        (fun j hj => hpre (j + 1) (by omega)) hbad
      rw [hres, show i + 1 + k' = i + (k' + 1) from by omega]
      rfl

/-- C3: over a parsed quiz list whose elements are JSON objects (with an
array-valued `options` field when present), validation succeeds and
returns the list exactly when every element has the four required fields,
exactly 4 options and a `correct_answer` in A–D; the first offending
element makes it fail with the message for its first failing check, and
every such message begins with "Question " followed by the 1-based index
of that element. -/
theorem quiz_element_validation (qs : List JVal)
    (hsh : ∀ q ∈ qs, elemShaped q = true) :
    (validateQuestions qs = .ok qs ↔ ∀ q ∈ qs, elemOkSpec q = true) ∧
    (∀ k, (hk : k < qs.length) →
      (∀ j, (hj : j < k) → elemOkSpec (qs.get ⟨j, Nat.lt_trans hj hk⟩) = true) →
      elemOkSpec (qs.get ⟨k, hk⟩) = false →
      validateQuestions qs = .error (.valueError (elemMsg k (qs.get ⟨k, hk⟩)))) ∧
    (∀ k (q : JVal), (qMsgHead k).isPrefixOf (elemMsg k q) = true) := by
  refine ⟨⟨?_, ?_⟩, ?_, ?_⟩
  · intro hv
    have hcq : checkQuestions 0 qs = .ok () := by
      cases hcc : checkQuestions 0 qs with
      | ok u => cases u; rfl
      | error e =>
        simp only [validateQuestions, hcc] at hv
        cases hv
    exact checkQuestions_ok_imp qs 0 hsh hcq
  · intro hall
    simp only [validateQuestions, checkQuestions_eq_ok qs 0 hsh hall]
  · intro k hk hpre hbad
    have := checkQuestions_eq_err qs 0 k hk hsh hpre hbad
    rw [Nat.zero_add] at this
    simp only [validateQuestions, this]
  · intro k q
    have base1 : ∀ (x : Str), (qMsgHead k).isPrefixOf (qMsgHead k ++ x) = true := fun x =>
      isPrefixOf_append_self _ x
    have base2 : ∀ (x y : Str), (qMsgHead k).isPrefixOf ((qMsgHead k ++ x) ++ y) = true :=
      fun x y => isPrefixOf_append_ext y (base1 x)
    cases q with
    | jnull => exact base1 _
    | jbool b => exact base1 _
    | jnum n => exact base1 _
    | jstr s => exact base1 _
    | jarr a => exact base1 _
    | jobj kvs =>
      simp only [elemMsg]
      split
      · exact base2 _ _
      · split <;> first
          | exact base1 _
          | (split <;> exact base1 _)

/-- Witness for C3: a two-element list whose second element has an
invalid `correct_answer` fails with the message for 1-based index 2. -/
theorem quiz_element_validation_witness :
    (∀ q ∈ demoQuiz, elemShaped q = true) ∧
    validateQuestions demoQuiz =
      .error (.valueError (elemMsg 1 (demoQuiz.get ⟨1, by decide⟩))) ∧
    (qMsgHead 1).isPrefixOf (elemMsg 1 (demoQuiz.get ⟨1, by decide⟩)) = true :=
  ⟨by decide,
    (quiz_element_validation demoQuiz (by decide)).2.1 1 (by decide)
      (fun j hj => by
        have hj0 : j = 0 := by omega
        subst hj0
        show elemOkSpec demoGoodQuestion = true
        decide)
      (by decide),
    (quiz_element_validation demoQuiz (by decide)).2.2 1 (demoQuiz.get ⟨1, by decide⟩)⟩

/-- C9: quiz normalization never compares the returned count with the
requested `num_questions`: whenever the cleaned response parses to a list
whose elements all pass the per-element checks, `generate_quiz` returns
exactly that list, whatever its length (the witness exercises the empty
list for the response "[]"). -/
theorem quiz_returns_list_without_count_check (env : Env)
    (text difficulty learning_style : Str) (num_questions : Int) (raw : Str) (a : JArr)
    (hne : pyStrip text ≠ []) (hn : 1 ≤ num_questions ∧ num_questions ≤ 10)
    (hlen : text.length ≤ 8000) (hkey : env.apiKeySet = true)
    (hresp : env.chatResult = .ok raw) (hraw : raw ≠ [])
    (hparse : json_loads (quizClean raw) = some (.jarr a))
    (hchk : checkQuestions 0 a.toList = .ok ()) :
    (generate_quiz env text num_questions difficulty learning_style).1 = .ok a.toList := by
  simp only [generate_quiz]
  rw [if_neg hne, if_neg (not_not_intro hn), if_neg (by omega),
    if_neg (by rw [hkey]; simp), hresp]
  have hnorm : quizNormalize raw = .ok a.toList := by
    simp only [quizNormalize, hparse, validateQuestions, hchk]
  simp [hraw, hnorm]

/-- Witness for C9: the response "[]" yields the empty question list. -/
theorem quiz_returns_list_without_count_check_witness :
    json_loads (quizClean (str "[]")) = some (.jarr .anil) ∧
    (generate_quiz ⟨true, .ok (str "[]"), .ok (str "")⟩ (str "water cycle notes") 3
      (str "college") (str "reading")).1 = .ok [] :=
  ⟨by decide,
    quiz_returns_list_without_count_check ⟨true, .ok (str "[]"), .ok (str "")⟩
      (str "water cycle notes") (str "college") (str "reading") 3 (str "[]") .anil
      (by decide) (by decide) (by decide) rfl rfl (by decide) (by decide) rfl⟩

end StudyBuddy
